import Mathlib

/-!
Verification development for the TradeAdvisor repository.

Shallow embedding conventions:
* Python floats on prices/indicators are modelled as exact rationals (`ℚ`);
  the claims under study never sit on a binary-float rounding knife edge.
* Python `dict` snapshots become a structure of `Option ℚ` fields
  (`None` ↦ `none`).
* Raising code is modelled with `Except`; SQLite tables become Lean lists;
  wall-clock instants are integers (epoch seconds).
* Formatted reason strings (`f"..."` literals in `trade_advisor.py`) are
  modelled by an inductive `Reason` whose constructors carry exactly the
  values interpolated into the corresponding template.
-/

namespace PyStr

/-- Characters stripped by Python `str.strip()` (ASCII whitespace subset:
space, tab, newline, carriage return, vertical tab, form feed). -/
def pyIsSpace (c : Char) : Bool :=
  decide (c.toNat = 32 ∨ c.toNat = 9 ∨ c.toNat = 10 ∨ c.toNat = 13 ∨ c.toNat = 11 ∨ c.toNat = 12)

/-- Python `str.upper()` on one character (ASCII model: `a`..`z` map down by 32). -/
def pyUpper (c : Char) : Char :=
  if 97 ≤ c.toNat ∧ c.toNat ≤ 122 then Char.ofNat (c.toNat - 32) else c

/-- Python `str.lower()` on one character (ASCII model: `A`..`Z` map up by 32). -/
def pyLower (c : Char) : Char :=
  if 65 ≤ c.toNat ∧ c.toNat ≤ 90 then Char.ofNat (c.toNat + 32) else c

/-- Python `str.strip()`: drop leading and trailing whitespace. -/
def pyStrip (l : List Char) : List Char :=
  ((l.dropWhile pyIsSpace).reverse.dropWhile pyIsSpace).reverse

/-- Decidable list-prefix test, used to implement substring search. -/
def isPrefixList : List Char → List Char → Bool
  | [], _ => true
  | _ :: _, [] => false
  | a :: as, b :: bs => a == b && isPrefixList as bs

/-- Substring containment (`re.search` of a literal pattern). -/
def containsSub (needle : List Char) : List Char → Bool
  | [] => isPrefixList needle []
  | b :: bs => isPrefixList needle (b :: bs) || containsSub needle bs

/-- Python `str.upper()` on a whole string. -/
def pyUpperS (s : String) : String := String.mk (s.data.map pyUpper)

/-- Python `str.lower()` on a whole string. -/
def pyLowerS (s : String) : String := String.mk (s.data.map pyLower)

end PyStr

namespace Validators

open PyStr

/-- Character class of the regex `^[A-Z0-9.-]+$` in `validate_ticker`
(uppercase letter, digit, dot `.` = 46, hyphen `-` = 45). -/
def tickerCharOk (c : Char) : Bool :=
  decide ((65 ≤ c.toNat ∧ c.toNat ≤ 90) ∨ (48 ≤ c.toNat ∧ c.toNat ≤ 57) ∨ c.toNat = 46 ∨ c.toNat = 45)

/-- Dangerous-pattern screen of `validate_ticker` applied to the lower-cased
ticker: directory traversal `..`, the two XSS literals, and the two SQL keyword
alternations (searched case-insensitively in already lower-cased text, hence
lower-case keyword containment). -/
def dangerousTicker (tl : List Char) : Bool :=
  containsSub ('.' :: '.' :: []) tl ||
  containsSub "<script".data tl ||
  containsSub "javascript:".data tl ||
  (["select", "insert", "update", "delete", "drop"].any fun k => containsSub k.data tl) ||
  (["union", "join", "where"].any fun k => containsSub k.data tl)

/-- Normalisation step `ticker = ticker.strip().upper()` of `validate_ticker`. -/
def normalized (s : List Char) : List Char := (pyStrip s).map pyUpper

/-- Embedding of `validators.validate_ticker`: empty-input guard, then
`strip().upper()`, length range [1,10], charset regex, dangerous-pattern
screen; returns the sanitized ticker on success. -/
def validate_ticker (s : List Char) : Option (List Char) :=
  if s = [] then none
  else if (normalized s).length < 1 ∨ 10 < (normalized s).length then none
  else if (normalized s).all tickerCharOk then
    if dangerousTicker ((normalized s).map pyLower) then none else some (normalized s)
  else none

end Validators

namespace TradeAdvisor

/-- Action strings of `trade_advisor.py` / `app.py` (`"ERROR"` is produced
only by the web layer's per-ticker error rows). -/
inductive Action where
  | BUY | SELL | HOLD | ERROR
deriving DecidableEq, Repr

/-- Reason messages appended in `trade_advisor.py`. Each constructor models
one `reasons.append(...)` site, carrying exactly the values that the Python
f-string interpolates. -/
inductive Reason where
  | insufficientData                              -- "Insufficient data to form a reliable signal"
  | nearLow (price low : ℚ)                       -- "✓ Price near 52-week low ..."
  | aboveDma200 (dma200 : ℚ)                      -- "✓ Above 200-day MA ..."
  | aboveDma50 (dma50 : ℚ)                        -- "✓ At/Above 50-day MA ..."
  | rsiAccumulation (rsi : ℚ)                     -- "✓ RSI in accumulation zone ..."
  | nearHigh (price high : ℚ)                     -- "⚠ Price near 52-week high ..."
  | belowDma200Bearish (dma200 : ℚ)               -- "⚠ Below 200-day MA ... - bearish"
  | rsiOverbought (rsi : ℚ)                       -- "⚠ RSI overbought ..."
  | belowDma50 (dma50 : ℚ)                        -- "⚠ Below 50-day MA ..."
  | multipleBearish                               -- "Multiple bearish technical signals suggest weakness"
  | fallingKnifePattern                           -- "🔻 Falling knife pattern detected"
  | fallingKnifeBelowBoth (dma50 dma200 : ℚ)      -- "Price below both 50-day MA ... and 200-day MA ..."
  | fallingKnifeOversold (rsi : ℚ)                -- "RSI severely oversold ..."
  | fallingKnifeAdvice                            -- "Recommendation: Avoid catching falling knives..."
  | partialBuySetup (buyScore : ℤ)                -- "⚖️ Partial buy setup (.../100) ..."
  | notAttractiveEntry (price low : ℚ)            -- "⚠ Not at attractive entry ..."
  | rsiNotBuyZone (rsi : ℚ)                       -- "⚠ RSI not in buy zone ..."
  | trendIntact (dma200 : ℚ)                      -- "✓ Long-term trend intact ..."
  | cautionSignals (sellScore : ℤ)                -- "⚖️ Caution signals present (.../100) ..."
  | nearResistance (price high : ℚ)               -- "⚠ Near resistance ..."
  | shortTermWeakness (dma50 : ℚ)                 -- "⚠ Short-term weakness ..."
  | longTermDowntrend (dma200 : ℚ)                -- "⚠ Long-term downtrend ..."
  | momentumExtended (rsi : ℚ)                    -- "⚠ Momentum extended ..."
  | neutralSetup                                  -- "⚖️ Neutral technical setup ..."
  | above200Positive (dma200 : ℚ)                 -- "✓ Above 200-day MA ... - long-term trend positive"
  | rsiNeutral (rsi : ℚ)                          -- "⚖️ RSI neutral ..."
  | noStrongSignals                               -- "No strong signals in either direction ..."
  | invalidTickerSymbol                           -- app.py: "Invalid ticker symbol"
  | failedToFetch                                 -- app.py: "Failed to fetch data"
deriving DecidableEq, Repr

/-- Market snapshot dict: the six indicator keys read by the engine plus
`volume` (read only by the web layer); `None` ↦ `none`. -/
structure Snapshot where
  current_price : Option ℚ
  w52_low : Option ℚ
  w52_high : Option ℚ
  dma_200 : Option ℚ
  dma_50 : Option ℚ
  rsi_14 : Option ℚ
  volume : Option ℚ := none
deriving DecidableEq, Repr

/-- Return record of `get_trade_recommendation`. -/
structure Recommendation where
  action : Action
  confidence : ℤ
  reasons : List Reason
deriving DecidableEq, Repr

/-- Final clamp `min(max(confidence, 0), 100)` of `calculate_confidence`. -/
def clampConf (c : ℤ) : ℤ := min (max c 0) 100

/-- Body of `calculate_confidence` once the six inputs are known present.
The HOLD branch divides by `dma_50`; Python would raise `ZeroDivisionError`
at `dma_50 = 0`, the embedding totalises with rational division (`x / 0 = 0`).
No claim under study evaluates the HOLD branch at `dma_50 = 0`. -/
def confidenceCore (action : Action) (price low high dma200 dma50 rsi : ℚ) : ℤ :=
  match action with
  | Action.BUY =>
      clampConf ((if price ≤ low * (11/10) then (25:ℤ) else 0) +
        (if price > dma200 then (20:ℤ) else 0) +
        (if price ≥ dma50 then (15:ℤ) else 0) +
        (if 30 ≤ rsi ∧ rsi ≤ 35 then (25:ℤ) else 0) +
        (if price > dma200 ∧ price > dma50 then (10:ℤ) else 0))
  | Action.SELL =>
      clampConf ((if price ≥ high * (9/10) then (40:ℤ) else 0) +
        (if price < dma200 then (40:ℤ) else 0) +
        (if rsi > 70 then (20:ℤ) else 0) +
        (if price < dma200 ∧ price < dma50 then (10:ℤ) else 0))
  | _ =>
      clampConf (50 +
        (if price > dma200 ∧ (40 < rsi ∧ rsi < 60) then (15:ℤ) else 0) +
        (if |price - dma50| / dma50 < 2/100 then (10:ℤ) else 0) +
        (if rsi < 30 ∨ rsi > 70 then (-15:ℤ) else 0) +
        (if price < dma200 then (-10:ℤ) else 0))

/-- Embedding of `calculate_confidence(action, data)`: zero when any of the
six critical inputs is absent, otherwise the scored-and-clamped value. -/
def calculate_confidence (action : Action) (data : Snapshot) : ℤ :=
  match data.current_price, data.w52_low, data.w52_high, data.dma_200, data.dma_50, data.rsi_14 with
  | some price, some low, some high, some dma200, some dma50, some rsi =>
      confidenceCore action price low high dma200 dma50 rsi
  | _, _, _, _, _, _ => 0

/-- `buy_score` accumulation of `get_trade_recommendation`. -/
def buyScore (price low dma200 dma50 rsi : ℚ) : ℤ :=
  (if price ≤ low * (11/10) then (25:ℤ) else 0) +
  (if price > dma200 then (25:ℤ) else 0) +
  (if price ≥ dma50 then (20:ℤ) else 0) +
  (if 30 ≤ rsi ∧ rsi ≤ 35 then (30:ℤ) else 0)

/-- `sell_score` accumulation of `get_trade_recommendation`. -/
def sellScore (price high dma200 dma50 rsi : ℚ) : ℤ :=
  (if price ≥ high * (9/10) then (40:ℤ) else 0) +
  (if price < dma200 then (40:ℤ) else 0) +
  (if rsi > 70 then (20:ℤ) else 0) +
  (if price < dma50 then (10:ℤ) else 0)

/-- `buy_reasons` list built alongside `buy_score`. -/
def buyReasonList (price low dma200 dma50 rsi : ℚ) : List Reason :=
  (if price ≤ low * (11/10) then [Reason.nearLow price low] else []) ++
  (if price > dma200 then [Reason.aboveDma200 dma200] else []) ++
  (if price ≥ dma50 then [Reason.aboveDma50 dma50] else []) ++
  (if 30 ≤ rsi ∧ rsi ≤ 35 then [Reason.rsiAccumulation rsi] else [])

/-- `sell_reasons` list built alongside `sell_score`. -/
def sellReasonList (price high dma200 dma50 rsi : ℚ) : List Reason :=
  (if price ≥ high * (9/10) then [Reason.nearHigh price high] else []) ++
  (if price < dma200 then [Reason.belowDma200Bearish dma200] else []) ++
  (if rsi > 70 then [Reason.rsiOverbought rsi] else []) ++
  (if price < dma50 then [Reason.belowDma50 dma50] else [])

/-- `hold_reasons` narrative of the final HOLD fall-through. -/
def holdReasonList (price low high dma200 dma50 rsi : ℚ) : List Reason :=
  let bs := buyScore price low dma200 dma50 rsi
  let ss := sellScore price high dma200 dma50 rsi
  let base :=
    if bs > ss then
      [Reason.partialBuySetup bs] ++
      (if ¬ price ≤ low * (11/10) then [Reason.notAttractiveEntry price low] else []) ++
      (if ¬ (30 ≤ rsi ∧ rsi ≤ 35) then [Reason.rsiNotBuyZone rsi] else []) ++
      (if price > dma200 then [Reason.trendIntact dma200] else [])
    else if ss > bs then
      [Reason.cautionSignals ss] ++
      (if price ≥ high * (9/10) then [Reason.nearResistance price high] else []) ++
      (if price < dma50 then [Reason.shortTermWeakness dma50] else []) ++
      (if price < dma200 then [Reason.longTermDowntrend dma200] else []) ++
      (if rsi > 65 then [Reason.momentumExtended rsi] else [])
    else
      [Reason.neutralSetup] ++
      (if price > dma200 then [Reason.above200Positive dma200] else []) ++
      (if 40 ≤ rsi ∧ rsi ≤ 60 then [Reason.rsiNeutral rsi] else [])
  if base = [] then [Reason.noStrongSignals] else base

/-- Decision chain of `get_trade_recommendation` once the six inputs are
present. The weak-sell rule's inner `if confidence >= 40: return` is modelled
by conjoining the confidence test to the rule's guard, which preserves the
fall-through-to-falling-knife control flow of the source. -/
def recommendCore (price low high dma200 dma50 rsi : ℚ) : Recommendation :=
  if buyScore price low dma200 dma50 rsi ≥ 90 then
    { action := Action.BUY
      confidence := confidenceCore Action.BUY price low high dma200 dma50 rsi
      reasons := buyReasonList price low dma200 dma50 rsi }
  else if sellScore price high dma200 dma50 rsi ≥ 80 ∧ price ≥ high * (9/10) ∧ price < dma200 then
    { action := Action.SELL
      confidence := confidenceCore Action.SELL price low high dma200 dma50 rsi
      reasons := sellReasonList price high dma200 dma50 rsi }
  else if (sellScore price high dma200 dma50 rsi ≥ 50 ∧ price < dma200 ∧ price < dma50) ∧
      confidenceCore Action.SELL price low high dma200 dma50 rsi ≥ 40 then
    { action := Action.SELL
      confidence := confidenceCore Action.SELL price low high dma200 dma50 rsi
      reasons := sellReasonList price high dma200 dma50 rsi ++ [Reason.multipleBearish] }
  else if rsi < 30 ∧ price < dma200 ∧ price < dma50 then
    { action := Action.SELL
      confidence := max (confidenceCore Action.SELL price low high dma200 dma50 rsi) 60
      reasons := [Reason.fallingKnifePattern, Reason.fallingKnifeBelowBoth dma50 dma200,
                  Reason.fallingKnifeOversold rsi, Reason.fallingKnifeAdvice] }
  else
    { action := Action.HOLD
      confidence := confidenceCore Action.HOLD price low high dma200 dma50 rsi
      reasons := holdReasonList price low high dma200 dma50 rsi }

/-- Embedding of `get_trade_recommendation(data)` including the
insufficient-data guard. -/
def get_trade_recommendation (data : Snapshot) : Recommendation :=
  match data.current_price, data.w52_low, data.w52_high, data.dma_200, data.dma_50, data.rsi_14 with
  | some price, some low, some high, some dma200, some dma50, some rsi =>
      recommendCore price low high dma200 dma50 rsi
  | _, _, _, _, _, _ =>
      { action := Action.HOLD, confidence := 0, reasons := [Reason.insufficientData] }

/-- Which decision rule of `get_trade_recommendation` produces the returned
record; the guards mirror `recommendCore` branch for branch. -/
inductive Rule where
  | insufficient | strongBuy | strongSell | weakSell | fallingKnife | holdFallthrough
deriving DecidableEq, Repr

/-- Rule selector for the all-present decision chain. -/
def decisionRuleCore (price low high dma200 dma50 rsi : ℚ) : Rule :=
  if buyScore price low dma200 dma50 rsi ≥ 90 then Rule.strongBuy
  else if sellScore price high dma200 dma50 rsi ≥ 80 ∧ price ≥ high * (9/10) ∧ price < dma200 then
    Rule.strongSell
  else if (sellScore price high dma200 dma50 rsi ≥ 50 ∧ price < dma200 ∧ price < dma50) ∧
      confidenceCore Action.SELL price low high dma200 dma50 rsi ≥ 40 then
    Rule.weakSell
  else if rsi < 30 ∧ price < dma200 ∧ price < dma50 then Rule.fallingKnife
  else Rule.holdFallthrough

/-- Rule selector lifted to snapshots. -/
def decisionRule (data : Snapshot) : Rule :=
  match data.current_price, data.w52_low, data.w52_high, data.dma_200, data.dma_50, data.rsi_14 with
  | some price, some low, some high, some dma200, some dma50, some rsi =>
      decisionRuleCore price low high dma200 dma50 rsi
  | _, _, _, _, _, _ => Rule.insufficient

end TradeAdvisor

namespace Database

/-- Row of the `magic_links` table (`token` is the primary key; times are
epoch seconds). -/
structure MagicLink where
  token : String
  email : String
  expiresAt : ℤ
  used : Bool
deriving DecidableEq, Repr

/-- Embedding of `database.verify_magic_link(token)` over an explicit table
state: `SELECT * FROM magic_links WHERE token = ? AND used = 0` is a
first-match lookup; an expired hit (`now > expires_at`) returns `none`
untouched; otherwise `UPDATE magic_links SET used = 1 WHERE token = ?` marks
every row bearing the token and the associated email is returned. -/
def verify_magic_link (now : ℤ) (token : String) (db : List MagicLink) :
    Option String × List MagicLink :=
  match db.find? (fun l => l.token == token && l.used == false) with
  | none => (none, db)
  | some l =>
      if now > l.expiresAt then (none, db)
      else (some l.email,
            db.map fun r => if r.token == token then { r with used := true } else r)

end Database

namespace MarketCache

/-- Conversion of an epoch instant to the local calendar fields used by
`_is_eod_expired` (`tm_year` and `tm_yday` of `time.localtime`). The cache
semantics hold for an arbitrary calendar, so the embedding is parametrised
by it; witnesses instantiate a concrete calendar. -/
structure LocalClock where
  year : ℤ → ℤ
  yday : ℤ → ℤ

/-- Embedding of `cache._is_eod_expired(ts)`: the entry is expired when the
local day-of-year or the local year of the cached instant differs from now's. -/
def is_eod_expired (clk : LocalClock) (now ts : ℤ) : Bool :=
  (clk.yday now != clk.yday ts) || (clk.year now != clk.year ts)

/-- Two-tier cache state for `market_data/cache.py`: the in-process
`_MEMORY_CACHE` map and the SQLite `market_cache` table, both keyed by ticker
and holding (payload, fetch timestamp). The JSON payload round-trips through
`json.dumps`/`json.loads`, so it is modelled as the data value itself. -/
structure CacheState (α : Type) where
  mem : String → Option (α × ℤ)
  db : String → Option (α × ℤ)

/-- SQLite tier of `cache.get_cached` (the code past the memory check):
answers `none` when the row is absent or expired, and otherwise populates the
memory tier and returns the payload. -/
def get_cached_db {α : Type} (clk : LocalClock) (now : ℤ) (st : CacheState α)
    (ticker : String) : Option α × CacheState α :=
  match st.db ticker with
  | none => (none, st)
  | some (payload, ts) =>
      if is_eod_expired clk now ts then (none, st)
      else (some payload,
            { st with mem := fun t => if t = ticker then some (payload, ts) else st.mem t })

/-- Embedding of `cache.get_cached(ticker)`: a fresh memory entry is returned
directly; otherwise control falls through to the SQLite tier. -/
def get_cached {α : Type} (clk : LocalClock) (now : ℤ) (st : CacheState α)
    (ticker : String) : Option α × CacheState α :=
  match st.mem ticker with
  | some (d, ts) =>
      if is_eod_expired clk now ts then get_cached_db clk now st ticker else (some d, st)
  | none => get_cached_db clk now st ticker

/-- Embedding of `cache.set_cached(ticker, data)`: write-through of both tiers
with the current instant as the fetch timestamp. -/
def set_cached {α : Type} (now : ℤ) (st : CacheState α) (ticker : String) (data : α) :
    CacheState α :=
  { mem := fun t => if t = ticker then some (data, now) else st.mem t
    db := fun t => if t = ticker then some (data, now) else st.db t }

end MarketCache

namespace Provider

/-- Value of a float cell that may carry IEEE NaN: `pandas` propagates NaN
through the RSI arithmetic when `avg_gain / avg_loss` is `0.0 / 0.0`. All
finite values stay exact rationals. -/
inductive RVal where
  | num (q : ℚ)
  | nan
deriving DecidableEq, Repr

/-- Successive differences `series.diff()` (the leading NaN cell that pandas
places at index 0 is omitted: for a series of length ≥ 15 the trailing
14-sample window used below never reaches it). -/
def diffs : List ℚ → List ℚ
  | [] => []
  | [_] => []
  | a :: b :: t => (b - a) :: diffs (b :: t)

/-- Trailing `n` elements of a list (`rolling(n)` window at the last index). -/
def lastN {α : Type} (n : Nat) (l : List α) : List α := l.drop (l.length - n)

/-- Python `round(x, 2)` on an exact value: scale by 100, round half to even,
rescale. -/
def pyRound2 (q : ℚ) : ℚ :=
  let s := 100 * q
  let f : ℤ := ⌊s⌋
  let frac := s - (f : ℚ)
  let r : ℤ :=
    if frac < 1/2 then f
    else if frac > 1/2 then f + 1
    else if f % 2 = 0 then f else f + 1
  (r : ℚ) / 100

/-- Mean over the trailing 14-sample window of the positive parts of the
successive differences (`gain.rolling(period).mean()` at the last index). -/
def avgGainAt (period : Nat) (series : List ℚ) : ℚ :=
  ((lastN period (diffs series)).map (fun d => max d 0)).sum / (period : ℚ)

/-- Mean over the trailing 14-sample window of the negative parts of the
successive differences (`loss.rolling(period).mean()` at the last index). -/
def avgLossAt (period : Nat) (series : List ℚ) : ℚ :=
  ((lastN period (diffs series)).map (fun d => max (-d) 0)).sum / (period : ℚ)

/-- Embedding of `provider.calculate_rsi(series, period)`. The float division
`rs = avg_gain / avg_loss` follows IEEE semantics, encoded explicitly: with
`avg_loss = 0` and `avg_gain > 0` the quotient is `+inf` and
`100 - 100/(1 + inf)` collapses to exactly `100.0`; with `0.0 / 0.0` the NaN
propagates through to the returned value (no exception either way). -/
def calculate_rsi (series : List ℚ) (period : Nat := 14) : Option RVal :=
  if series.length < period + 1 then none
  else
    let delta := diffs series
    let win := lastN period delta
    let gains := win.map fun d => max d 0
    let losses := win.map fun d => max (-d) 0
    let avgGain := gains.sum / (period : ℚ)
    let avgLoss := losses.sum / (period : ℚ)
    if avgLoss = 0 then
      if avgGain = 0 then some RVal.nan else some (RVal.num 100)
    else some (RVal.num (pyRound2 (100 - 100 / (1 + avgGain / avgLoss))))

end Provider

namespace EmailUtils

/-- Email transport credentials (`EMAIL_USER` / `EMAIL_PASSWORD`; unset
environment variables are `none`). Host and port play no role in the claims. -/
structure EmailConfig where
  user : Option String
  password : Option String
deriving DecidableEq, Repr

/-- Python truthiness of a credential: `None` and the empty string are falsy. -/
def truthyStr : Option String → Bool
  | none => false
  | some s => !(s == "")

/-- Exceptions `send_email` can raise. -/
inductive EmailError where
  | notConfigured        -- Exception("Email service not configured")
  | invalidAddress       -- ValueError("Invalid email address")
  | authFailed           -- Exception("Email authentication failed. ...")
  | retriesExhausted     -- Exception(f"Failed to send email after ... attempts")
  | unexpectedFailure    -- Exception(f"Failed to send email: ...")
deriving DecidableEq, Repr

/-- Outcome of one SMTP delivery attempt, abstracting the network. -/
inductive AttemptOutcome where
  | success | authError | smtpError | otherError
deriving DecidableEq, Repr

/-- Retry loop of `send_email`: attempt indices run `0 .. retryCount - 1`;
`remaining` counts the attempts still allowed. An SMTP or unexpected error on
the final attempt raises; an authentication error raises immediately; after a
zero-iteration loop the function returns `False`. -/
def attemptLoop (attempts : Nat → AttemptOutcome) (retryCount : Nat) :
    Nat → Except EmailError Bool
  | 0 => Except.ok false
  | remaining + 1 =>
      match attempts (retryCount - (remaining + 1)) with
      | AttemptOutcome.success => Except.ok true
      | AttemptOutcome.authError => Except.error EmailError.authFailed
      | AttemptOutcome.smtpError =>
          if remaining = 0 then Except.error EmailError.retriesExhausted
          else attemptLoop attempts retryCount remaining
      | AttemptOutcome.otherError =>
          if remaining = 0 then Except.error EmailError.unexpectedFailure
          else attemptLoop attempts retryCount remaining

/-- Embedding of `email_utils.send_email`: missing/empty credentials raise
`Email service not configured`; an address without `@` (or empty) raises
`Invalid email address`; otherwise delivery is attempted up to `retryCount`
times against the abstract transport. -/
def send_email (cfg : EmailConfig) (attempts : Nat → AttemptOutcome)
    (toEmail _subject _htmlBody : String) (retryCount : Nat := 3) :
    Except EmailError Bool :=
  if !truthyStr cfg.user || !truthyStr cfg.password then
    Except.error EmailError.notConfigured
  else if toEmail == "" || !(toEmail.data.contains '@') then
    Except.error EmailError.invalidAddress
  else attemptLoop attempts retryCount retryCount

end EmailUtils

namespace WebApp

open TradeAdvisor

/-- Row of the `users` table. -/
structure UserRow where
  id : ℤ
  name : String
  email : String
deriving DecidableEq, Repr

/-- Database slice touched by the dashboard flow: users, the per-user
watchlist (`user_tickers` rows as (user id, ticker) pairs) and the
`recommendations` history (user id, ticker, action, confidence, price). -/
structure Db where
  users : List UserRow
  userTickers : List (ℤ × String)
  recommendations : List (ℤ × String × Action × ℤ × ℚ)
deriving DecidableEq, Repr

/-- Embedding of `database.get_user_by_email` (the `COLLATE NOCASE` lookup is
a case-insensitive comparison): the user row plus their watchlist tickers. -/
def get_user_by_email (db : Db) (email : String) : Option (UserRow × List String) :=
  match db.users.find? (fun u => PyStr.pyLowerS u.email == PyStr.pyLowerS email) with
  | none => none
  | some u => some (u, (db.userTickers.filter fun p => p.1 == u.id).map Prod.snd)

/-- Result row assembled by `app.analyze_user_tickers` for the dashboard
table. -/
structure ResultRow where
  ticker : String
  price : Option ℚ
  rsi : Option ℚ
  dma50 : Option ℚ
  dma200 : Option ℚ
  macd : Option ℚ
  macdSignal : Option ℚ
  w52Low : Option ℚ
  w52High : Option ℚ
  volumeTrend : Option ℚ
  action : Action
  confidence : ℤ
  reasons : List Reason
deriving DecidableEq, Repr

/-- Loop body of `analyze_user_tickers` for one watchlist symbol; `fetch`
abstracts `get_trade_advisor_data` (always a well-shaped snapshot dict here —
the provider never raises). An invalid symbol yields the upper-cased ERROR
row. The second component carries the `save_recommendation` insert, executed
when `data.get("current_price")` is truthy (so neither absent nor zero). The
source's catch-all exception row is unreachable in this pure model. -/
def analyzeOne (fetch : String → Snapshot) (userId : ℤ) (ticker : String) :
    ResultRow × List (ℤ × String × Action × ℤ × ℚ) :=
  match Validators.validate_ticker ticker.data with
  | none =>
      ({ ticker := PyStr.pyUpperS ticker
         price := none, rsi := none, dma50 := none, dma200 := none
         macd := none, macdSignal := none, w52Low := none, w52High := none
         volumeTrend := none
         action := Action.ERROR, confidence := 0
         reasons := [Reason.invalidTickerSymbol] }, [])
  | some ct =>
      let cleanTicker := String.mk ct
      let data := fetch cleanTicker
      let r := get_trade_recommendation data
      let saves :=
        match data.current_price with
        | some p => if p ≠ 0 then [(userId, cleanTicker, r.action, r.confidence, p)] else []
        | none => []
      ({ ticker := cleanTicker
         price := data.current_price
         rsi := data.rsi_14
         dma50 := data.dma_50
         dma200 := data.dma_200
         macd := none          -- data.get("macd"): key never present in a snapshot
         macdSignal := none    -- data.get("macd_signal"): likewise
         w52Low := data.w52_low
         w52High := data.w52_high
         volumeTrend := data.volume
         action := r.action
         confidence := r.confidence
         reasons := r.reasons }, saves)

/-- Embedding of `app.analyze_user_tickers(user)`: one result row per
watchlist symbol plus the recommendation-history inserts it performs. -/
def analyze_user_tickers (fetch : String → Snapshot) (userId : ℤ)
    (tickers : List String) : List ResultRow × List (ℤ × String × Action × ℤ × ℚ) :=
  match tickers with
  | [] => ([], [])
  | t :: rest =>
      let (row, saves) := analyzeOne fetch userId t
      let (rows, moreSaves) := analyze_user_tickers fetch userId rest
      (row :: rows, saves ++ moreSaves)

/-- What the `/batch-json` route produces: a redirect to `/login`, or the
dashboard page rendered from the result rows (HTML templating elided — the
page shows exactly one table row per result row). -/
inductive BatchResponse where
  | redirectLogin
  | page (rows : List ResultRow)
deriving DecidableEq, Repr

/-- Embedding of the `app.batch_json` route: session check, user lookup,
per-ticker analysis (whose recommendation inserts are committed), then
render. No statement in this flow writes to `user_tickers`. -/
def batch_json (fetch : String → Snapshot) (db : Db) (sessionEmail : Option String) :
    BatchResponse × Db :=
  match sessionEmail with
  | none => (BatchResponse.redirectLogin, db)
  | some email =>
      match get_user_by_email db email with
      | none => (BatchResponse.redirectLogin, db)
      | some (u, tickers) =>
          let (rows, saves) := analyze_user_tickers fetch u.id tickers
          (BatchResponse.page rows,
           { db with recommendations := db.recommendations ++ saves })

end WebApp

section EngineTheorems

open TradeAdvisor

/-- Helper: with the price below the 200-day MA the SELL confidence collects
at least the 40-point below-200 award, and below both MAs also the 10-point
weak-trend bonus, so it is at least 50 after clamping. -/
theorem sellConf_ge_50 (price low high d200 d50 rsi : ℚ)
    (h200 : price < d200) (h50 : price < d50) :
    50 ≤ confidenceCore Action.SELL price low high d200 d50 rsi := by
  have hrfl : confidenceCore Action.SELL price low high d200 d50 rsi =
      clampConf ((if price ≥ high * (9/10) then (40:ℤ) else 0) +
        (if price < d200 then (40:ℤ) else 0) +
        (if rsi > 70 then (20:ℤ) else 0) +
        (if price < d200 ∧ price < d50 then (10:ℤ) else 0)) := rfl
  rw [hrfl, if_pos h200, if_pos (show price < d200 ∧ price < d50 from ⟨h200, h50⟩)]
  unfold clampConf
  split_ifs <;> omega

/-- Helper: below both moving averages the sell score collects at least
40 + 10 points. -/
theorem sellScore_ge_50 (price high d200 d50 rsi : ℚ)
    (h200 : price < d200) (h50 : price < d50) :
    50 ≤ sellScore price high d200 d50 rsi := by
  simp only [sellScore, if_pos h200, if_pos h50]
  split_ifs <;> norm_num

/-- Helper: below both moving averages the buy score misses the above-200 and
above-50 awards, hence stays strictly under 90. -/
theorem buyScore_lt_90 (price low d200 d50 rsi : ℚ)
    (h200 : price < d200) (h50 : price < d50) :
    buyScore price low d200 d50 rsi < 90 := by
  have hn200 : ¬ price > d200 := not_lt.mpr (le_of_lt h200)
  have hn50 : ¬ price ≥ d50 := not_le.mpr h50
  simp only [buyScore, if_neg hn200, if_neg hn50]
  split_ifs <;> norm_num

/-- Helper: in the oversold-downtrend region the decision chain returns SELL
with confidence at least 50, from the strong-sell rule when near the 52-week
high and otherwise from the weak-sell rule. -/
theorem recommendCore_oversold_downtrend (price low high d200 d50 rsi : ℚ)
    (h200 : price < d200) (h50 : price < d50) :
    (recommendCore price low high d200 d50 rsi).action = Action.SELL ∧
    50 ≤ (recommendCore price low high d200 d50 rsi).confidence := by
  have hconf := sellConf_ge_50 price low high d200 d50 rsi h200 h50
  have hss := sellScore_ge_50 price high d200 d50 rsi h200 h50
  have hbs := buyScore_lt_90 price low d200 d50 rsi h200 h50
  rw [recommendCore, if_neg (not_le.mpr hbs)]
  by_cases hsh : sellScore price high d200 d50 rsi ≥ 80 ∧ price ≥ high * (9/10) ∧ price < d200
  · rw [if_pos hsh]
    exact ⟨rfl, hconf⟩
  · rw [if_neg hsh, if_pos ⟨⟨hss, h200, h50⟩, by linarith⟩]
    exact ⟨rfl, hconf⟩

/-- C1. Missing-data guard: a snapshot missing any of the six inputs makes
`get_trade_recommendation` return exactly HOLD / confidence 0 / the single
insufficient-data reason, with no partial scoring attempted. -/
theorem missing_data_guard (s : Snapshot)
    (h : s.current_price = none ∨ s.w52_low = none ∨ s.w52_high = none ∨
         s.dma_200 = none ∨ s.dma_50 = none ∨ s.rsi_14 = none) :
    get_trade_recommendation s =
      { action := Action.HOLD, confidence := 0, reasons := [Reason.insufficientData] } := by
  obtain ⟨p, l, hi, d2, d5, r, v⟩ := s
  cases p <;> cases l <;> cases hi <;> cases d2 <;> cases d5 <;> cases r <;>
    simp_all [get_trade_recommendation]

/-- Witness for C1 at a concrete snapshot with an absent current price. -/
theorem missing_data_guard_witness :
    get_trade_recommendation ⟨none, some 85, some 150, some 88, some 87, some 32, none⟩ =
      { action := Action.HOLD, confidence := 0, reasons := [Reason.insufficientData] } :=
  missing_data_guard ⟨none, some 85, some 150, some 88, some 87, some 32, none⟩ (Or.inl rfl)

/-- C2 counterexample. At price 50 / low 10 / high 100 / dma200 60 / dma50 55
/ rsi 25 every hypothesis of the falling-knife claim holds (all six inputs
present, rsi < 30, price below both MAs, no earlier BUY or strong-SELL rule
applies), yet the code returns SELL with confidence 50 < 60: the weak-sell
rule fires first and no 60-floor is applied. -/
theorem falling_knife_floor_cex :
    ((25:ℚ) < 30 ∧ (50:ℚ) < 60 ∧ (50:ℚ) < 55 ∧
     ¬ buyScore 50 10 60 55 25 ≥ 90 ∧
     ¬ (sellScore 50 100 60 55 25 ≥ 80 ∧ (50:ℚ) ≥ 100 * (9/10) ∧ (50:ℚ) < 60)) ∧
    get_trade_recommendation ⟨some 50, some 10, some 100, some 60, some 55, some 25, none⟩ =
      { action := Action.SELL, confidence := 50,
        reasons := [Reason.belowDma200Bearish 60, Reason.belowDma50 55, Reason.multipleBearish] } ∧
    ¬ (60 ≤ (get_trade_recommendation
        ⟨some 50, some 10, some 100, some 60, some 55, some 25, none⟩).confidence) := by
  have hb : buyScore 50 10 60 55 25 = 0 := by norm_num [buyScore]
  have hs : sellScore 50 100 60 55 25 = 50 := by norm_num [sellScore]
  have hc : confidenceCore Action.SELL 50 10 100 60 55 25 = 50 := by
    have h : confidenceCore Action.SELL 50 10 100 60 55 25 =
        clampConf ((if (50:ℚ) ≥ 100 * (9/10) then (40:ℤ) else 0) +
          (if (50:ℚ) < 60 then (40:ℤ) else 0) +
          (if (25:ℚ) > 70 then (20:ℤ) else 0) +
          (if (50:ℚ) < 60 ∧ (50:ℚ) < 55 then (10:ℤ) else 0)) := rfl
    rw [h]
    norm_num [clampConf]
  have hrec : get_trade_recommendation
      ⟨some 50, some 10, some 100, some 60, some 55, some 25, none⟩ =
      recommendCore 50 10 100 60 55 25 := rfl
  rw [hrec, recommendCore]
  norm_num [hb, hs, hc, sellReasonList]

/-- C2 (amended). With all six inputs present, rsi < 30 and the price below
both MAs, `get_trade_recommendation` returns SELL with confidence at least 50
(not 60): the strong-sell or weak-sell rule fires before the falling-knife
branch, and no 60-floor is applied. -/
theorem falling_knife_region_weak_sell (s : Snapshot) (price low high d200 d50 rsi : ℚ)
    (hp : s.current_price = some price) (hl : s.w52_low = some low)
    (hh : s.w52_high = some high) (h2 : s.dma_200 = some d200)
    (h5 : s.dma_50 = some d50) (hr : s.rsi_14 = some rsi)
    (hrsi : rsi < 30) (hb200 : price < d200) (hb50 : price < d50) :
    (get_trade_recommendation s).action = Action.SELL ∧
    50 ≤ (get_trade_recommendation s).confidence := by
  obtain ⟨p, l, hi, dd2, dd5, r, v⟩ := s
  simp only at hp hl hh h2 h5 hr
  subst hp hl hh h2 h5 hr
  simpa [get_trade_recommendation] using
    recommendCore_oversold_downtrend price low high d200 d50 rsi hb200 hb50

/-- Witness for C2's amended theorem at the counterexample snapshot. -/
theorem falling_knife_region_weak_sell_witness :
    (get_trade_recommendation
        ⟨some 50, some 10, some 100, some 60, some 55, some 25, none⟩).action = Action.SELL ∧
    50 ≤ (get_trade_recommendation
        ⟨some 50, some 10, some 100, some 60, some 55, some 25, none⟩).confidence :=
  falling_knife_region_weak_sell _ 50 10 100 60 55 25 rfl rfl rfl rfl rfl rfl
    (by norm_num) (by norm_num) (by norm_num)

/-- C3. Below both MAs the computed SELL confidence is at least 50, hence at
least 40, so a reached weak-sell rule always returns SELL rather than falling
through; consequently the decision is the strong-sell or the weak-sell rule
and the falling-knife branch is unreachable for every snapshot. -/
theorem weak_sell_preempts_falling_knife :
    (∀ s : Snapshot, decisionRule s ≠ Rule.fallingKnife) ∧
    (∀ price low high d200 d50 rsi : ℚ, price < d200 → price < d50 →
      50 ≤ confidenceCore Action.SELL price low high d200 d50 rsi ∧
      40 ≤ confidenceCore Action.SELL price low high d200 d50 rsi ∧
      50 ≤ sellScore price high d200 d50 rsi ∧
      (decisionRuleCore price low high d200 d50 rsi = Rule.strongSell ∨
       decisionRuleCore price low high d200 d50 rsi = Rule.weakSell) ∧
      (recommendCore price low high d200 d50 rsi).action = Action.SELL) := by
  have hcore : ∀ price low high d200 d50 rsi : ℚ,
      decisionRuleCore price low high d200 d50 rsi ≠ Rule.fallingKnife := by
    intro price low high d200 d50 rsi
    unfold decisionRuleCore
    split_ifs with h1 h2 h3 h4 <;> simp only [ne_eq, reduceCtorEq, not_false_eq_true]
    obtain ⟨hr, h200, h50⟩ := h4
    exact absurd ⟨⟨sellScore_ge_50 price high d200 d50 rsi h200 h50, h200, h50⟩,
      by linarith [sellConf_ge_50 price low high d200 d50 rsi h200 h50]⟩ h3
  constructor
  · intro s
    obtain ⟨p, l, hi, d2, d5, r, v⟩ := s
    cases p <;> cases l <;> cases hi <;> cases d2 <;> cases d5 <;> cases r <;>
      simp_all [decisionRule]
  · intro price low high d200 d50 rsi h200 h50
    have hconf := sellConf_ge_50 price low high d200 d50 rsi h200 h50
    have hss := sellScore_ge_50 price high d200 d50 rsi h200 h50
    have hbs := buyScore_lt_90 price low d200 d50 rsi h200 h50
    refine ⟨hconf, by linarith, hss, ?_, (recommendCore_oversold_downtrend
      price low high d200 d50 rsi h200 h50).1⟩
    rw [decisionRuleCore, if_neg (not_le.mpr hbs)]
    by_cases hsh : sellScore price high d200 d50 rsi ≥ 80 ∧ price ≥ high * (9/10) ∧ price < d200
    · rw [if_pos hsh]; exact Or.inl rfl
    · rw [if_neg hsh, if_pos ⟨⟨hss, h200, h50⟩, by linarith⟩]; exact Or.inr rfl

/-- Witness for C3 at the concrete oversold-downtrend snapshot. -/
theorem weak_sell_preempts_falling_knife_witness :
    decisionRule ⟨some 50, some 10, some 100, some 60, some 55, some 25, none⟩ ≠
      Rule.fallingKnife ∧
    50 ≤ confidenceCore Action.SELL 50 10 100 60 55 25 ∧
    (recommendCore 50 10 100 60 55 25).action = Action.SELL :=
  ⟨weak_sell_preempts_falling_knife.1 _,
   (weak_sell_preempts_falling_knife.2 50 10 100 60 55 25 (by norm_num) (by norm_num)).1,
   (weak_sell_preempts_falling_knife.2 50 10 100 60 55 25 (by norm_num) (by norm_num)).2.2.2.2⟩

/-- C4. The BUY scenario snapshot (price 90, low 85, high 150, dma200 88,
dma50 87, rsi 32) scores buy_score = 25+25+20+30 = 100 ≥ 90 and yields BUY
with confidence 25+20+15+25+10 = 95 and the four buy reasons. -/
theorem buy_scenario_value :
    buyScore 90 85 88 87 32 = 100 ∧
    get_trade_recommendation ⟨some 90, some 85, some 150, some 88, some 87, some 32, none⟩ =
      { action := Action.BUY, confidence := 95,
        reasons := [Reason.nearLow 90 85, Reason.aboveDma200 88,
                    Reason.aboveDma50 87, Reason.rsiAccumulation 32] } := by
  have hb : buyScore 90 85 88 87 32 = 100 := by norm_num [buyScore]
  have hc : confidenceCore Action.BUY 90 85 150 88 87 32 = 95 := by
    have h : confidenceCore Action.BUY 90 85 150 88 87 32 =
        clampConf ((if (90:ℚ) ≤ 85 * (11/10) then (25:ℤ) else 0) +
          (if (90:ℚ) > 88 then (20:ℤ) else 0) +
          (if (90:ℚ) ≥ 87 then (15:ℤ) else 0) +
          (if (30:ℚ) ≤ 32 ∧ (32:ℚ) ≤ 35 then (25:ℤ) else 0) +
          (if (90:ℚ) > 88 ∧ (90:ℚ) > 87 then (10:ℤ) else 0)) := rfl
    rw [h]
    norm_num [clampConf]
  have hrec : get_trade_recommendation
      ⟨some 90, some 85, some 150, some 88, some 87, some 32, none⟩ =
      recommendCore 90 85 150 88 87 32 := rfl
  refine ⟨hb, ?_⟩
  rw [hrec, recommendCore]
  norm_num [hb, hc, buyReasonList]

end EngineTheorems

section DatabaseTheorems

open Database

/-- Helper: with pairwise distinct tokens (the `token` column is the primary
key), the unused-token lookup finds exactly the stored row. -/
theorem find_unused_of_mem (db : List MagicLink) (l : MagicLink) (tok : String)
    (hnd : (db.map MagicLink.token).Nodup) (hmem : l ∈ db)
    (htok : l.token = tok) (hunused : l.used = false) :
    db.find? (fun r => r.token == tok && r.used == false) = some l := by
  induction db with
  | nil => cases hmem
  | cons a t ih =>
    rcases List.mem_cons.mp hmem with h | h
    · subst h
      exact List.find?_cons_of_pos t (by simp [htok, hunused])
    · have hcons : (∀ x ∈ t, ¬ x.token = a.token) ∧ (t.map MagicLink.token).Nodup := by
        simpa using hnd
      have hat : ¬ a.token = tok := fun he => hcons.1 l h (htok.trans he.symm)
      exact (List.find?_cons_of_neg t (by simp [hat])).trans (ih hcons.2 h)

/-- Helper: after the `UPDATE ... SET used = 1 WHERE token = ?`, no row with
that token matches the unused-token lookup any more. -/
theorem find_after_mark_used (db : List MagicLink) (tok : String) :
    (db.map fun r => if r.token == tok then { r with used := true } else r).find?
      (fun r => r.token == tok && r.used == false) = none := by
  rw [List.find?_eq_none]
  intro x hx
  rcases List.mem_map.mp hx with ⟨r, _, hxe⟩
  by_cases h : r.token = tok
  · subst hxe; simp [h]
  · subst hxe; simp [h]

/-- C5. A stored unused token that has not expired verifies exactly once: the
first call returns the stored email and marks the row used, the second call
returns no value and leaves the table unchanged; and a table with no unused
row for the token (unknown or already-used), or an expired row, answers no
value without modifying anything. -/
theorem verify_magic_link_single_use
    (db : List MagicLink) (l : MagicLink) (tok : String) (now1 now2 : ℤ)
    (hnd : (db.map MagicLink.token).Nodup) (hmem : l ∈ db) (htok : l.token = tok)
    (hunused : l.used = false) (hfresh : ¬ now1 > l.expiresAt) :
    (verify_magic_link now1 tok db).1 = some l.email ∧
    verify_magic_link now2 tok (verify_magic_link now1 tok db).2 =
      (none, (verify_magic_link now1 tok db).2) ∧
    (∀ (db' : List MagicLink) (t : String) (n : ℤ),
      (∀ r ∈ db', r.token ≠ t ∨ r.used = true) →
      verify_magic_link n t db' = (none, db')) ∧
    (∀ n : ℤ, n > l.expiresAt → verify_magic_link n tok db = (none, db)) := by
  have hfind := find_unused_of_mem db l tok hnd hmem htok hunused
  have h1 : verify_magic_link now1 tok db =
      (some l.email, db.map fun r => if r.token == tok then { r with used := true } else r) := by
    unfold verify_magic_link
    rw [hfind]
    simp only [if_neg hfresh]
  refine ⟨by rw [h1], ?_, ?_, ?_⟩
  · rw [h1]
    unfold verify_magic_link
    rw [find_after_mark_used db tok]
  · intro db' t n hall
    have hnone : db'.find? (fun r => r.token == t && r.used == false) = none := by
      rw [List.find?_eq_none]
      intro x hx
      rcases hall x hx with h | h <;> simp [h]
    unfold verify_magic_link
    rw [hnone]
  · intro n hn
    unfold verify_magic_link
    rw [hfind]
    simp only [if_pos hn]

/-- Witness for C5 on a one-row table: the token verifies once at time 50
(15-minute expiry at time 100), fails on the repeat call, an unknown token
fails on an empty table, and the same row read at time 200 is expired. -/
theorem verify_magic_link_single_use_witness :
    (verify_magic_link 50 "t1" [⟨"t1", "a@b.co", 100, false⟩]).1 = some "a@b.co" ∧
    verify_magic_link 200 "t1" (verify_magic_link 50 "t1" [⟨"t1", "a@b.co", 100, false⟩]).2 =
      (none, (verify_magic_link 50 "t1" [⟨"t1", "a@b.co", 100, false⟩]).2) ∧
    verify_magic_link 60 "zz" ([] : List MagicLink) = (none, []) ∧
    verify_magic_link 200 "t1" [⟨"t1", "a@b.co", 100, false⟩] =
      (none, [⟨"t1", "a@b.co", 100, false⟩]) := by
  have h := verify_magic_link_single_use [⟨"t1", "a@b.co", 100, false⟩]
    ⟨"t1", "a@b.co", 100, false⟩ "t1" 50 200 (by simp) (by simp) rfl rfl (by norm_num)
  exact ⟨h.1, h.2.1, h.2.2.1 [] "zz" 60 (by simp), h.2.2.2 200 (by norm_num)⟩

end DatabaseTheorems

section CacheTheorems

open MarketCache

/-- C6. For a cached row with fetch timestamp `ts` (memory tier empty or
consistent with the SQLite tier, as `set_cached` leaves it), `get_cached`
returns the entry exactly when the local calendar year and day-of-year of
`ts` and `now` agree, and reports absence exactly when either differs — so an
entry written at 23:59:59 on day D is absent two seconds later on day D+1,
while any same-calendar-day read returns it regardless of age. -/
theorem get_cached_eod_semantics {α : Type} (clk : LocalClock) (now ts : ℤ)
    (st : CacheState α) (ticker : String) (d : α)
    (hdb : st.db ticker = some (d, ts))
    (hmem : st.mem ticker = none ∨ st.mem ticker = st.db ticker) :
    ((get_cached clk now st ticker).1 = some d ↔
      clk.year now = clk.year ts ∧ clk.yday now = clk.yday ts) ∧
    ((get_cached clk now st ticker).1 = none ↔
      (clk.year now ≠ clk.year ts ∨ clk.yday now ≠ clk.yday ts)) := by
  have hexp : is_eod_expired clk now ts = true ↔
      (clk.yday now ≠ clk.yday ts ∨ clk.year now ≠ clk.year ts) := by
    simp [is_eod_expired]
  have hdbres : (get_cached_db clk now st ticker).1 =
      if is_eod_expired clk now ts then none else some d := by
    unfold get_cached_db
    rw [hdb]
    by_cases he : is_eod_expired clk now ts <;> simp [he]
  have hres : (get_cached clk now st ticker).1 =
      if is_eod_expired clk now ts then none else some d := by
    unfold get_cached
    rcases hmem with hm | hm
    · rw [hm]
      exact hdbres
    · rw [hm, hdb]
      by_cases he : is_eod_expired clk now ts
      · simp [he, hdbres]
      · simp [he]
  rw [hres]
  by_cases he : is_eod_expired clk now ts
  · have hne := hexp.mp he
    refine ⟨?_, ?_⟩ <;> simp [he] <;> tauto
  · have heq : ¬ (clk.yday now ≠ clk.yday ts ∨ clk.year now ≠ clk.year ts) :=
      fun hc => he (hexp.mpr hc)
    push_neg at heq
    refine ⟨?_, ?_⟩ <;> simp [he] <;> tauto

/-- Witness for C6 with a concrete 365-day calendar over epoch seconds: the
entry cached at second 86399 (23:59:59 of day 0) is absent when read at
second 86401 (00:00:01 of day 1) and present when read within day 0. -/
theorem get_cached_eod_semantics_witness :
    (get_cached ⟨fun t => t / 31536000, fun t => t % 31536000 / 86400⟩ 86401
      ⟨fun _ => none, fun t => if t = "AAPL" then some ((42:ℚ), 86399) else none⟩ "AAPL").1 =
      none ∧
    (get_cached ⟨fun t => t / 31536000, fun t => t % 31536000 / 86400⟩ 86399
      ⟨fun _ => none, fun t => if t = "AAPL" then some ((42:ℚ), 86399) else none⟩ "AAPL").1 =
      some 42 := by
  have h1 := get_cached_eod_semantics (α := ℚ)
    ⟨fun t => t / 31536000, fun t => t % 31536000 / 86400⟩ 86401 86399
    ⟨fun _ => none, fun t => if t = "AAPL" then some ((42:ℚ), 86399) else none⟩ "AAPL" 42
    (by simp) (Or.inl rfl)
  have h2 := get_cached_eod_semantics (α := ℚ)
    ⟨fun t => t / 31536000, fun t => t % 31536000 / 86400⟩ 86399 86399
    ⟨fun _ => none, fun t => if t = "AAPL" then some ((42:ℚ), 86399) else none⟩ "AAPL" 42
    (by simp) (Or.inl rfl)
  exact ⟨h1.2.mpr (Or.inr (by decide)), h2.1.mpr ⟨rfl, rfl⟩⟩

end CacheTheorems

section WebAppTheorems

open TradeAdvisor WebApp

/-- C7 counterexample. A logged-in user whose watchlist is empty: the
dashboard route renders an empty page and the watchlist table still holds no
rows afterwards — in particular not the claimed default set AAPL, MSFT, NVDA.
No seeding step exists anywhere in the dashboard flow. -/
theorem no_default_seed_cex :
    (batch_json (fun _ => ⟨none, none, none, none, none, none, none⟩)
       ⟨[⟨1, "Ann", "ann@x.co"⟩], [], []⟩ (some "ann@x.co")).1 = BatchResponse.page [] ∧
    (batch_json (fun _ => ⟨none, none, none, none, none, none, none⟩)
       ⟨[⟨1, "Ann", "ann@x.co"⟩], [], []⟩ (some "ann@x.co")).2.userTickers = [] ∧
    (batch_json (fun _ => ⟨none, none, none, none, none, none, none⟩)
       ⟨[⟨1, "Ann", "ann@x.co"⟩], [], []⟩ (some "ann@x.co")).2.userTickers ≠
      [(1, "AAPL"), (1, "MSFT"), (1, "NVDA")] := by
  decide

/-- C7 (amended). The application performs no default-watchlist seeding: for
every logged-in user whose watchlist is empty, the dashboard renders with
zero rows and the database is left exactly as it was — no tickers (AAPL,
MSFT, NVDA or otherwise) are inserted before or during the first render. -/
theorem empty_watchlist_no_seed (fetch : String → Snapshot) (db : Db)
    (u : UserRow) (em : String)
    (hfind : get_user_by_email db em = some (u, [])) :
    (batch_json fetch db (some em)).1 = BatchResponse.page [] ∧
    (batch_json fetch db (some em)).2 = db := by
  simp [batch_json, hfind, analyze_user_tickers]

/-- Witness for C7's amended theorem at the concrete single-user database. -/
theorem empty_watchlist_no_seed_witness :
    (batch_json (fun _ => ⟨none, none, none, none, none, none, none⟩)
       ⟨[⟨1, "Ann", "ann@x.co"⟩], [], []⟩ (some "ann@x.co")).1 = BatchResponse.page [] ∧
    (batch_json (fun _ => ⟨none, none, none, none, none, none, none⟩)
       ⟨[⟨1, "Ann", "ann@x.co"⟩], [], []⟩ (some "ann@x.co")).2 =
      ⟨[⟨1, "Ann", "ann@x.co"⟩], [], []⟩ :=
  empty_watchlist_no_seed (fun _ => ⟨none, none, none, none, none, none, none⟩)
    ⟨[⟨1, "Ann", "ann@x.co"⟩], [], []⟩ ⟨1, "Ann", "ann@x.co"⟩ "ann@x.co" (by decide)

end WebAppTheorems

section EmailTheorems

open EmailUtils

/-- C8 counterexample. With both credentials absent, `send_email` raises the
`Email service not configured` exception for a perfectly valid recipient,
subject and body — it does not return false. -/
theorem send_email_unconfigured_cex :
    send_email ⟨none, none⟩ (fun _ => AttemptOutcome.success) "a@b.co" "subj" "body" 3 =
      Except.error EmailError.notConfigured ∧
    send_email ⟨none, none⟩ (fun _ => AttemptOutcome.success) "a@b.co" "subj" "body" 3 ≠
      Except.ok false := by
  constructor <;> simp [send_email, truthyStr]

/-- C8 (amended). Whenever `EMAIL_USER` or `EMAIL_PASSWORD` is absent (or
empty, which Python treats the same), `send_email` raises the
`Email service not configured` exception — never returning false and never
touching the transport — for every recipient, subject, body and retry count. -/
theorem send_email_unconfigured_raises (cfg : EmailConfig)
    (attempts : Nat → AttemptOutcome) (toEmail subject body : String) (rc : Nat)
    (h : truthyStr cfg.user = false ∨ truthyStr cfg.password = false) :
    send_email cfg attempts toEmail subject body rc =
      Except.error EmailError.notConfigured := by
  rcases h with h | h <;> simp [send_email, h]

/-- Witness for C8's amended theorem at concrete unset credentials. -/
theorem send_email_unconfigured_raises_witness :
    send_email ⟨none, some "pw"⟩ (fun _ => AttemptOutcome.smtpError) "x@y.co" "s" "b" 3 =
      Except.error EmailError.notConfigured :=
  send_email_unconfigured_raises ⟨none, some "pw"⟩ (fun _ => AttemptOutcome.smtpError)
    "x@y.co" "s" "b" 3 (Or.inl rfl)

end EmailTheorems

section ProviderTheorems

open Provider

/-- C9 counterexample. A flat 15-sample close series has `avg_loss = 0` but
also `avg_gain = 0`, so `rs = 0.0 / 0.0` is NaN and the returned RSI is NaN —
not the claimed 100 (no exception is raised either way). -/
theorem rsi_flat_series_cex :
    avgLossAt 14 (List.replicate 15 (10:ℚ)) = 0 ∧
    calculate_rsi (List.replicate 15 (10:ℚ)) 14 = some RVal.nan ∧
    some RVal.nan ≠ some (RVal.num 100) := by
  refine ⟨?_, ?_, by simp⟩
  · norm_num [avgLossAt, lastN, diffs, List.replicate]
  · norm_num [calculate_rsi, lastN, diffs, List.replicate]

/-- C9 (amended). For a series shorter than 15 samples the RSI is absent; for
at least 15 samples with `avg_loss ≠ 0` it equals
`100 − 100/(1 + avg_gain/avg_loss)` (simple 14-sample rolling means of the
positive/negative parts of the successive differences, evaluated at the most
recent sample) rounded to 2 decimals; with `avg_loss = 0` and `avg_gain > 0`
it is exactly 100; and with both averages 0 (flat window) it is NaN. No case
raises. -/
theorem calculate_rsi_cases (s : List ℚ) :
    (s.length < 15 → calculate_rsi s 14 = none) ∧
    (15 ≤ s.length →
      (avgLossAt 14 s ≠ 0 → calculate_rsi s 14 =
        some (RVal.num (pyRound2 (100 - 100 / (1 + avgGainAt 14 s / avgLossAt 14 s))))) ∧
      (avgLossAt 14 s = 0 → avgGainAt 14 s ≠ 0 → calculate_rsi s 14 = some (RVal.num 100)) ∧
      (avgLossAt 14 s = 0 → avgGainAt 14 s = 0 → calculate_rsi s 14 = some RVal.nan)) := by
  constructor
  · intro hlen
    simp [calculate_rsi, hlen]
  · intro hlen
    have hnot : ¬ s.length < 14 + 1 := by omega
    refine ⟨?_, ?_, ?_⟩
    · intro hl
      simp [calculate_rsi, hnot, avgGainAt, avgLossAt, hl] at *
      simp [hl]
    · intro hl hg
      simp only [calculate_rsi, hnot, if_false, if_neg hnot]
      rw [show ((lastN 14 (diffs s)).map fun d => max (-d) 0).sum / ((14:ℕ):ℚ) = avgLossAt 14 s from rfl]
      rw [show ((lastN 14 (diffs s)).map fun d => max d 0).sum / ((14:ℕ):ℚ) = avgGainAt 14 s from rfl]
      rw [if_pos hl, if_neg hg]
    · intro hl hg
      simp only [calculate_rsi, hnot, if_false, if_neg hnot]
      rw [show ((lastN 14 (diffs s)).map fun d => max (-d) 0).sum / ((14:ℕ):ℚ) = avgLossAt 14 s from rfl]
      rw [show ((lastN 14 (diffs s)).map fun d => max d 0).sum / ((14:ℕ):ℚ) = avgGainAt 14 s from rfl]
      rw [if_pos hl, if_pos hg]

/-- Witness for C9's amended theorem: a 1-sample series is absent; a mixed
15-sample series (one up-move, one down-move) hits the generic formula; a
strictly increasing 15-sample series has `avg_loss = 0`, `avg_gain > 0` and
evaluates to exactly 100. -/
theorem calculate_rsi_cases_witness :
    calculate_rsi [(1:ℚ)] 14 = none ∧
    calculate_rsi [10, 11, 10, 10, 10, 10, 10, 10, 10, 10, 10, 10, 10, 10, (10:ℚ)] 14 =
      some (RVal.num (pyRound2 (100 - 100 /
        (1 + avgGainAt 14 [10, 11, 10, 10, 10, 10, 10, 10, 10, 10, 10, 10, 10, 10, (10:ℚ)] /
             avgLossAt 14 [10, 11, 10, 10, 10, 10, 10, 10, 10, 10, 10, 10, 10, 10, (10:ℚ)])))) ∧
    calculate_rsi [1, 2, 3, 4, 5, 6, 7, 8, 9, 10, 11, 12, 13, 14, (15:ℚ)] 14 =
      some (RVal.num 100) := by
  refine ⟨(calculate_rsi_cases [(1:ℚ)]).1 (by norm_num), ?_, ?_⟩
  · exact ((calculate_rsi_cases _).2 (by norm_num)).1
      (by norm_num [avgLossAt, lastN, diffs])
  · exact ((calculate_rsi_cases _).2 (by norm_num)).2.1
      (by norm_num [avgLossAt, lastN, diffs])
      (by norm_num [avgGainAt, lastN, diffs])

end ProviderTheorems

section ValidatorTheorems

open PyStr Validators

/-- Helper: accepted ticker characters are never stripped as whitespace. -/
theorem charOk_not_space (c : Char) (h : tickerCharOk c = true) :
    pyIsSpace c = false := by
  have hp := of_decide_eq_true h
  simp only [pyIsSpace, decide_eq_false_iff_not]
  omega

/-- Helper: accepted ticker characters (uppercase letters, digits, dot,
hyphen) are fixed points of `str.upper()`. -/
theorem charOk_upper_fixed (c : Char) (h : tickerCharOk c = true) :
    pyUpper c = c := by
  have hp := of_decide_eq_true h
  rw [pyUpper, if_neg]
  omega

/-- Helper: `dropWhile` is the identity when no element satisfies the
predicate. -/
theorem dropWhile_id {α : Type} (p : α → Bool) (l : List α)
    (h : ∀ c ∈ l, p c = false) : l.dropWhile p = l := by
  cases l with
  | nil => rfl
  | cons a t => simp [List.dropWhile_cons, h a (List.mem_cons_self a t)]

/-- Helper: stripping is the identity on whitespace-free strings. -/
theorem strip_of_no_space (l : List Char) (h : ∀ c ∈ l, pyIsSpace c = false) :
    pyStrip l = l := by
  unfold pyStrip
  rw [dropWhile_id pyIsSpace l h,
      dropWhile_id pyIsSpace l.reverse (fun c hc => h c (List.mem_reverse.mp hc)),
      List.reverse_reverse]

/-- Helper: upper-casing is the identity on accepted ticker characters. -/
theorem map_upper_id (l : List Char) (h : ∀ c ∈ l, tickerCharOk c = true) :
    l.map pyUpper = l := by
  induction l with
  | nil => rfl
  | cons a t ih =>
      rw [List.map_cons, charOk_upper_fixed a (h a (List.mem_cons_self a t)),
          ih fun c hc => h c (List.mem_cons_of_mem a hc)]

/-- C10. `validate_ticker` is idempotent on its accepted outputs: a returned
ticker passes validation again and is returned unchanged. -/
theorem validate_ticker_idempotent (s t : List Char)
    (h : validate_ticker s = some t) : validate_ticker t = some t := by
  unfold validate_ticker at h
  split_ifs at h with h0 h1 h2 h3 <;> try exact Option.noConfusion h
  obtain rfl : normalized s = t := Option.some.inj h
  have hallP : ∀ c ∈ normalized s, tickerCharOk c = true := by
    simpa [List.all_eq_true] using h2
  have hstrip : pyStrip (normalized s) = normalized s :=
    strip_of_no_space _ fun c hc => charOk_not_space c (hallP c hc)
  have hupper : (normalized s).map pyUpper = normalized s := map_upper_id _ hallP
  have hnorm : normalized (normalized s) = normalized s := by
    show (pyStrip (normalized s)).map pyUpper = normalized s
    rw [hstrip, hupper]
  have hne : normalized s ≠ [] := by
    intro he
    exact h1 (Or.inl (by simp [he]))
  unfold validate_ticker
  rw [if_neg hne, hnorm, if_neg h1, if_pos h2, if_neg h3]

/-- Witness for C10: the sample round-trip `"  aapl "` → `"AAPL"`, and the
theorem applied to it re-validates `"AAPL"` to itself. -/
theorem validate_ticker_idempotent_witness :
    validate_ticker "  aapl ".data = some "AAPL".data ∧
    validate_ticker "AAPL".data = some "AAPL".data := by
  have h : validate_ticker "  aapl ".data = some "AAPL".data := by decide
  exact ⟨h, validate_ticker_idempotent _ _ h⟩

end ValidatorTheorems
